import Mathlib

/-!
Verification of the HGPCode repository (src/hgp.py) against its
natural-language specification.

The development has two layers:

* a source-level embedding of `src/hgp.py` as it is written: the
  `classicalcode` holder, the `HGPCode` parameter computation
  (`N`, `K`, `D`), and the `BP_decoder` function.  Bodies that the
  source leaves as `pass` return the Python value `None` (modelled as
  `Option.none`) and never raise;
* a spec-level model of the parts whose implementations are missing
  from the source (the bodies of `compile_stabilizer` and
  `calc_logical_operators` are `pass`): the hypergraph-product
  stabilizer construction `HX = [H1 ⊗ I | I ⊗ H2ᵀ]`,
  `HZ = [I ⊗ H2 | H1ᵀ ⊗ I]` over GF(2), and the logical-operator
  solver, both modelled from the spec's words.

All GF(2) arithmetic is over `ZMod 2`.
-/

set_option maxHeartbeats 1000000

open Matrix
open Kronecker

namespace HGP

/-- The error taxonomy named by the spec (section 7) together with Python's
built-in `ValueError`.  In the source-level embedding no error is ever
raised; the spec-level model uses the constructors the spec assigns. -/
inductive PyError where
  | ValidationError
  | ConstructionError
  | PrecomputeMissingError
  | DegenerateBasisError
  | ValueError
deriving DecidableEq, Repr

/-- Source embedding of `classicalcode` (src/hgp.py lines 5-18): a plain
holder for `n`, `r`, `d` and the check matrix.  Python integers are `ℤ`;
the numpy array `checkmatrix` is a list of rows of arbitrary integers
(the source never constrains its shape or entries). -/
structure classicalcode where
  n : ℤ
  r : ℤ
  d : ℤ
  checkmatrix : List (List ℤ)
deriving DecidableEq, Repr

/-- Source embedding of `classicalcode.__init__` (src/hgp.py lines 8-18):
the body only stores the four arguments; it performs no validation and
cannot raise, so it returns `Except.ok` on every input. -/
def classicalcode.init (n r d : ℤ) (checkmatrix : List (List ℤ)) :
    Except PyError classicalcode :=
  Except.ok ⟨n, r, d, checkmatrix⟩

/-- The conformance predicate the spec's ValidationError is about:
`checkmatrix` has exactly `r` rows, each of length `n`, with every entry
in {0, 1}. -/
def isValidCode (c : classicalcode) : Bool :=
  decide ((c.checkmatrix.length : ℤ) = c.r) &&
  c.checkmatrix.all (fun row =>
    decide ((row.length : ℤ) = c.n) &&
    row.all (fun x => decide (x = 0) || decide (x = 1)))

/-- Source embedding of the `HGPCode` attribute state after `__init__`
(src/hgp.py lines 30-41). -/
structure HGPCode where
  code1 : classicalcode
  code2 : classicalcode
  N : ℤ
  K : ℤ
  D : ℤ
deriving DecidableEq, Repr

/-- Source embedding of `HGPCode.__init__` (src/hgp.py lines 33-41):
`N = n1*n2 + r1*r2`, `K = (n1 - r1)*(n2 - r2)`, `D = min d1 d2`,
computed from the declared parameters only. -/
def HGPCode.init (code1 code2 : classicalcode) : HGPCode :=
  ⟨code1, code2,
   code1.n * code2.n + code1.r * code2.r,
   (code1.n - code1.r) * (code2.n - code2.r),
   min code1.d code2.d⟩

/-- Source embedding of `BP_decoder` (src/hgp.py lines 72-78).  The
declared parameters are `syndrome` and `max_iterations` (default 100 in
the source); there is no check-matrix or channel-probability parameter.
The body is `pass`, so the call returns Python's `None` (here
`Option.none`) for every input and never raises. -/
def BP_decoder (syndrome : List ℤ) (max_iterations : ℤ) :
    Except PyError (Option (List ℤ × Bool × ℤ)) :=
  Except.ok none

/-! ## Executable GF(2) linear algebra on lists

Used for the GF(2) rank appearing in the spec's `K` formula and for the
spec-modelled logical-operator solver. -/

/-- Decidable equality of `Except` values, used to evaluate the model on
concrete inputs. -/
instance {ε α : Type} [DecidableEq ε] [DecidableEq α] : DecidableEq (Except ε α) :=
  fun x y =>
    match x, y with
    | Except.ok a, Except.ok b =>
      if h : a = b then isTrue (by rw [h]) else isFalse (fun hh => h (Except.ok.inj hh))
    | Except.error a, Except.error b =>
      if h : a = b then isTrue (by rw [h]) else isFalse (fun hh => h (Except.error.inj hh))
    | Except.ok _, Except.error _ => isFalse (fun hh => Except.noConfusion hh)
    | Except.error _, Except.ok _ => isFalse (fun hh => Except.noConfusion hh)

/-- A GF(2) vector as a list of `ZMod 2` entries. -/
abbrev Vec := List (ZMod 2)

/-- Entrywise sum (XOR) of two vectors. -/
def vadd (a b : Vec) : Vec := List.zipWith (· + ·) a b

/-- GF(2) inner product of two vectors. -/
def vdot (a b : Vec) : ZMod 2 := (List.zipWith (· * ·) a b).sum

/-- Is the vector all-zero? -/
def isZero (v : Vec) : Bool := v.all (fun x => decide (x = 0))

/-- Index of the leading 1 of a vector, if any. -/
def pivotIdx (v : Vec) : Option ℕ := v.findIdx? (fun x => decide (x = 1))

/-- Sort key for echelon insertion: the pivot index, with zero vectors
keyed past the end. -/
def pkey (v : Vec) : ℕ := (pivotIdx v).getD v.length

/-- One elimination step: add `b` to `w` when `w` has a 1 at the pivot
of `b`. -/
def reduceOnce (b w : Vec) : Vec :=
  match pivotIdx b with
  | none => w
  | some p => if w.getD p 0 = 1 then vadd w b else w

/-- Reduce `v` against an echelon basis (rows sorted by ascending pivot). -/
def reduceVec (basis : List Vec) (v : Vec) : Vec :=
  basis.foldl (fun w b => reduceOnce b w) v

/-- Insert a reduced, nonzero vector into an echelon basis, keeping
pivots ascending. -/
def insertVec : List Vec → Vec → List Vec
  | [], w => [w]
  | b :: bs, w => if pkey w < pkey b then w :: b :: bs else b :: insertVec bs w

/-- Add one row to an echelon basis (Gaussian elimination step). -/
def addToBasis (basis : List Vec) (v : Vec) : List Vec :=
  let w := reduceVec basis v
  if isZero w then basis else insertVec basis w

/-- Echelon basis of the row space of `rows`. -/
def buildBasis (rows : List Vec) : List Vec := rows.foldl addToBasis []

/-- An integer reduced mod 2 into GF(2). -/
def toGF2 (z : ℤ) : ZMod 2 := if z % 2 = 0 then 0 else 1

/-- GF(2) rank of an integer matrix given as a list of rows: the size of
an echelon basis of its rows reduced mod 2. -/
def gf2rank (H : List (List ℤ)) : ℕ :=
  (buildBasis (H.map (fun row => row.map toGF2))).length

/-! ## Kernel, quotient and symplectic pairing (spec-modelled solver core) -/

/-- The `i`-th standard unit vector of length `n`. -/
def unitVec (n i : ℕ) : Vec := (List.range n).map (fun j => if j = i then 1 else 0)

/-- Columns of a row-list matrix with `n` columns, as a list of `n`
vectors. -/
def transposeRows (rows : List Vec) (n : ℕ) : List Vec :=
  (List.range n).map (fun j => rows.map (fun r => r.getD j 0))

/-- Elimination step on a (vector, tag) pair: the same row operation is
applied to both components. -/
def reduceOnceP (b w : Vec × Vec) : Vec × Vec :=
  match pivotIdx b.1 with
  | none => w
  | some p => if w.1.getD p 0 = 1 then (vadd w.1 b.1, vadd w.2 b.2) else w

/-- Reduce a tagged vector against a tagged echelon basis. -/
def reducePair (basis : List (Vec × Vec)) (v : Vec × Vec) : Vec × Vec :=
  basis.foldl (fun w b => reduceOnceP b w) v

/-- Insert a tagged vector into a tagged echelon basis by pivot of the
first component. -/
def insertPair : List (Vec × Vec) → Vec × Vec → List (Vec × Vec)
  | [], w => [w]
  | b :: bs, w => if pkey w.1 < pkey b.1 then w :: b :: bs else b :: insertPair bs w

/-- One step of null-space computation: reduce the next tagged column;
a column that becomes zero contributes its tag as a kernel vector. -/
def kernelStep (st : List (Vec × Vec) × List Vec) (row : Vec × Vec) :
    List (Vec × Vec) × List Vec :=
  let w := reducePair st.1 row
  if isZero w.1 then (st.1, st.2 ++ [w.2]) else (insertPair st.1 w, st.2)

/-- Basis of the null space of a row-list matrix with `n` columns, by
Gaussian elimination on the columns tagged with unit vectors. -/
def kernelBasis (rows : List Vec) (n : ℕ) : List Vec :=
  let cols := transposeRows rows n
  let tagged := (List.range n).map (fun i => (cols.getD i [], unitVec n i))
  (tagged.foldl kernelStep ([], [])).2

/-- One step of quotient-basis computation: keep a generator only when
it is independent of `modRows` and of the generators kept so far. -/
def quotientStep (st : List Vec × List Vec) (v : Vec) : List Vec × List Vec :=
  let w := reduceVec st.1 v
  if isZero w then st else (insertVec st.1 w, st.2 ++ [w])

/-- Representatives of a basis of span(gens) modulo span(modRows), via
Gaussian elimination over GF(2). -/
def quotientBasis (modRows : List Vec) (gens : List Vec) : List Vec :=
  (gens.foldl quotientStep (buildBasis modRows, [])).2

/-- Symplectic Gram-Schmidt pairing over GF(2): pair each X candidate
with a Z candidate of inner product 1, then orthogonalize the remaining
candidates against the chosen pair.  Returns `none` when a candidate
cannot be paired or the candidate counts disagree. -/
def pairUp : ℕ → List Vec → List Vec → Option (List Vec × List Vec)
  | 0, _, _ => none
  | _ + 1, [], zs => if zs.isEmpty then some ([], []) else none
  | fuel + 1, x :: xs, zs =>
    match zs.findIdx? (fun z => decide (vdot x z = 1)) with
    | none => none
    | some i =>
      let z := zs.getD i []
      let zs1 := zs.eraseIdx i
      let xs1 := xs.map (fun v => if vdot v z = 1 then vadd v x else v)
      let zs2 := zs1.map (fun v => if vdot x v = 1 then vadd v z else v)
      match pairUp fuel xs1 zs2 with
      | none => none
      | some (lx, lz) => some (x :: lx, z :: lz)

/-- Does `LX · LZᵀ` equal the identity, entrywise? -/
def pairCheck (lx lz : List Vec) : Bool :=
  (List.range lx.length).all (fun i => (List.range lz.length).all (fun j =>
    decide (vdot (lx.getD i []) (lz.getD j []) = if i = j then 1 else 0)))

/-- Does every operator in `ops` commute with (have zero inner product
against) every row of `rows`? -/
def commutes (rows : List Vec) (ops : List Vec) : Bool :=
  ops.all (fun v => rows.all (fun r => decide (vdot r v = 0)))

/-- Final verification of the solver output, following the spec's
invariants: `|LX| = |LZ| = K`, every returned operator is a length-`n`
binary vector over the qubit set, every element of LX commutes with
every row of HZ (and LZ with HX), and `LX · LZᵀ = I_K`. -/
def checkAll (K : ℤ) (n : ℕ) (hxRows hzRows lx lz : List Vec) : Bool :=
  decide ((lx.length : ℤ) = K) && decide ((lz.length : ℤ) = K) &&
  lx.all (fun v => decide (v.length = n)) &&
  lz.all (fun v => decide (v.length = n)) &&
  commutes hzRows lx && commutes hxRows lz && pairCheck lx lz

/-- Modelled from the spec: the LogicalOperatorSolver (spec section 4.3),
whose implementation is missing from the source (the body of
`HGPCode.calc_logical_operators` is `pass`).  LX candidates form a basis
of `ker(HZ)` modulo `rowspace(HX)` and LZ candidates a basis of
`ker(HX)` modulo `rowspace(HZ)`; candidates are paired by symplectic
reduction until `LX · LZᵀ = I_K`, and the call fails with a
DegenerateBasisError when fewer than `K` independent pairs are found. -/
def solveLogicals (K : ℤ) (hxRows hzRows : List Vec) (n : ℕ) :
    Except PyError (List Vec × List Vec) :=
  let lxC := quotientBasis hxRows (kernelBasis hzRows n)
  let lzC := quotientBasis hzRows (kernelBasis hxRows n)
  match pairUp (lxC.length + 1) lxC lzC with
  | none => Except.error PyError.DegenerateBasisError
  | some (lx, lz) =>
    if checkAll K n hxRows hzRows lx lz then Except.ok (lx, lz)
    else Except.error PyError.DegenerateBasisError

/-! ## Spec-modelled hypergraph-product construction

The bodies of `HGPCode.compile_stabilizer` and
`HGPCode.calc_logical_operators` in src/hgp.py are `pass`; the
construction below is modelled from the spec (sections 4.2 and 4.3). -/

/-- Modelled from the spec: `HX = [ H1 ⊗ I_n2 | I_r1 ⊗ H2ᵀ ]`
(spec section 4.2), with `r1·n2` rows over the `n1·n2 + r1·r2` qubit
columns. -/
def HXmat {r1 n1 r2 n2 : ℕ} (H1 : Matrix (Fin r1) (Fin n1) (ZMod 2))
    (H2 : Matrix (Fin r2) (Fin n2) (ZMod 2)) :
    Matrix (Fin r1 × Fin n2) ((Fin n1 × Fin n2) ⊕ (Fin r1 × Fin r2)) (ZMod 2) :=
  fromColumns (H1 ⊗ₖ (1 : Matrix (Fin n2) (Fin n2) (ZMod 2)))
    ((1 : Matrix (Fin r1) (Fin r1) (ZMod 2)) ⊗ₖ H2ᵀ)

/-- Modelled from the spec: `HZ = [ I_n1 ⊗ H2 | H1ᵀ ⊗ I_r2 ]`
(spec section 4.2), with `n1·r2` rows over the same qubit columns. -/
def HZmat {r1 n1 r2 n2 : ℕ} (H1 : Matrix (Fin r1) (Fin n1) (ZMod 2))
    (H2 : Matrix (Fin r2) (Fin n2) (ZMod 2)) :
    Matrix (Fin n1 × Fin r2) ((Fin n1 × Fin n2) ⊕ (Fin r1 × Fin r2)) (ZMod 2) :=
  fromColumns ((1 : Matrix (Fin n1) (Fin n1) (ZMod 2)) ⊗ₖ H2)
    (H1ᵀ ⊗ₖ (1 : Matrix (Fin r2) (Fin r2) (ZMod 2)))

/-- Modelled from the spec: the `HGPCode` object state relevant to
`compile_stabilizer` and `calc_logical_operators`: the two (valid,
hence correctly shaped GF(2)) check matrices, and the stabilizer pair,
absent until `compile_stabilizer` has populated it. -/
structure HGPState (r1 n1 r2 n2 : ℕ) where
  H1 : Matrix (Fin r1) (Fin n1) (ZMod 2)
  H2 : Matrix (Fin r2) (Fin n2) (ZMod 2)
  stab : Option (Matrix (Fin r1 × Fin n2) ((Fin n1 × Fin n2) ⊕ (Fin r1 × Fin r2)) (ZMod 2) ×
    Matrix (Fin n1 × Fin r2) ((Fin n1 × Fin n2) ⊕ (Fin r1 × Fin r2)) (ZMod 2))

/-- Modelled from the spec: `compile_stabilizer` (spec sections 4.2, 6, 7),
whose implementation is missing from the source (its body is `pass`).
It rebuilds `HX` and `HZ` from the immutable inputs, checks the
orthogonality invariant unconditionally, populates the stabilizer pair
on success and fails with a ConstructionError otherwise. -/
def compile_stabilizer {r1 n1 r2 n2 : ℕ} (s : HGPState r1 n1 r2 n2) :
    Except PyError (HGPState r1 n1 r2 n2) :=
  if HXmat s.H1 s.H2 * (HZmat s.H1 s.H2)ᵀ = 0 then
    Except.ok ⟨s.H1, s.H2, some (HXmat s.H1 s.H2, HZmat s.H1 s.H2)⟩
  else Except.error PyError.ConstructionError

/-- Row indices of an `a × b`-indexed block in row-major order. -/
def rowEnum (a b : ℕ) : List (Fin a × Fin b) :=
  (List.ofFn (fun i : Fin a => List.ofFn (fun j : Fin b => (i, j)))).flatten

/-- The qubit columns in spec layout order: the primary `n1·n2` block
first, then the dual `r1·r2` block, each row-major. -/
def colEnum (n1 n2 r1 r2 : ℕ) : List ((Fin n1 × Fin n2) ⊕ (Fin r1 × Fin r2)) :=
  (List.ofFn (fun i : Fin n1 => List.ofFn (fun j : Fin n2 => Sum.inl (i, j)))).flatten ++
  (List.ofFn (fun k : Fin r1 => List.ofFn (fun l : Fin r2 => Sum.inr (k, l)))).flatten

/-- A matrix listed as rows of entries, following the given row and
column enumerations. -/
def matRows {ρ γ : Type} (M : Matrix ρ γ (ZMod 2)) (rs : List ρ) (cs : List γ) :
    List Vec :=
  rs.map (fun i => cs.map (fun j => M i j))

/-- Modelled from the spec: `calc_logical_operators` (spec sections 4.3
and 6), whose implementation is missing from the source (its body is
`pass`).  It fails with a PrecomputeMissingError when the stabilizer
pair has not been populated by `compile_stabilizer`, and otherwise runs
the logical-operator solver on the stored pair; `K` is the code's
stored logical dimension. -/
def calc_logical_operators {r1 n1 r2 n2 : ℕ} (K : ℤ) (s : HGPState r1 n1 r2 n2) :
    Except PyError (List Vec × List Vec) :=
  match s.stab with
  | none => Except.error PyError.PrecomputeMissingError
  | some (hx, hz) =>
    solveLogicals K (matRows hx (rowEnum r1 n2) (colEnum n1 n2 r1 r2))
      (matRows hz (rowEnum n1 r2) (colEnum n1 n2 r1 r2)) (n1 * n2 + r1 * r2)

/-! ## Concrete instances used by counterexamples and witnesses -/

/-- A valid but rank-deficient classical code: the declared check count
is 2 but the two check rows are equal, so the GF(2) rank is 1. -/
def dupCode1 : classicalcode := ⟨2, 2, 1, [[1, 1], [1, 1]]⟩

/-- The repetition-check code of length 2 with one check row. -/
def dupCode2 : classicalcode := ⟨2, 1, 1, [[1, 1]]⟩

/-- A valid degenerate classical code with zero declared checks. -/
def degCode1 : classicalcode := ⟨1, 0, 1, []⟩

/-- A valid classical code of length 2 with one (nonredundant) check. -/
def degCode2 : classicalcode := ⟨2, 1, 1, [[1, 1]]⟩

/-- Codes agreeing on all declared parameters but with four distinct
check matrices. -/
def altCode1 : classicalcode := ⟨2, 1, 1, [[1, 1]]⟩

/-- See `altCode1`. -/
def altCode1x : classicalcode := ⟨2, 1, 1, [[1, 0]]⟩

/-- See `altCode1`. -/
def altCode2 : classicalcode := ⟨2, 1, 1, [[0, 1]]⟩

/-- See `altCode1`. -/
def altCode2x : classicalcode := ⟨2, 1, 1, [[0, 0]]⟩

/-- The 1 × 2 repetition check matrix `[1 1]` over GF(2). -/
def exH : Matrix (Fin 1) (Fin 2) (ZMod 2) := !![1, 1]

/-- A freshly initialized spec-level HGP state built from `[1 1]` and
`[1 1]` (the 5-qubit hypergraph product), before compilation. -/
def exFresh : HGPState 1 2 1 2 := ⟨exH, exH, none⟩

/-- The same state after `compile_stabilizer` has populated the
stabilizer pair. -/
def exState : HGPState 1 2 1 2 := ⟨exH, exH, some (HXmat exH exH, HZmat exH exH)⟩

/-- The logical X operator the solver finds on `exState`. -/
def exLX : List Vec := [[0, 0, 1, 1, 0]]

/-- The logical Z operator the solver finds on `exState`. -/
def exLZ : List Vec := [[0, 1, 0, 1, 0]]

/-! ## Helper lemmas shared by the claim theorems -/

/-- The CSS orthogonality invariant holds for every pair of check
matrices: `HX · HZᵀ = (H1 ⊗ H2ᵀ) + (H1 ⊗ H2ᵀ) = 0` over GF(2). -/
theorem hgp_orthogonal {r1 n1 r2 n2 : ℕ} (H1 : Matrix (Fin r1) (Fin n1) (ZMod 2))
    (H2 : Matrix (Fin r2) (Fin n2) (ZMod 2)) :
    HXmat H1 H2 * (HZmat H1 H2)ᵀ = 0 := by
  unfold HXmat HZmat
  rw [transpose_fromColumns, fromColumns_mul_fromRows,
    ← kroneckerMap_transpose, ← kroneckerMap_transpose,
    transpose_one, transpose_one, transpose_transpose,
    ← mul_kronecker_mul, ← mul_kronecker_mul]
  simp only [Matrix.mul_one, Matrix.one_mul]
  ext i j
  simp only [Matrix.add_apply, Matrix.zero_apply]
  exact (by decide : ∀ a : ZMod 2, a + a = 0) _

/-- `compile_stabilizer` always succeeds and populates the stabilizer
pair computed from the inputs. -/
theorem compile_stabilizer_ok {r1 n1 r2 n2 : ℕ} (s : HGPState r1 n1 r2 n2) :
    compile_stabilizer s =
      Except.ok ⟨s.H1, s.H2, some (HXmat s.H1 s.H2, HZmat s.H1 s.H2)⟩ := by
  unfold compile_stabilizer
  exact if_pos (hgp_orthogonal s.H1 s.H2)

/-- A successful `solveLogicals` run has passed its final verification. -/
theorem solveLogicals_check {K : ℤ} {hxRows hzRows : List Vec} {n : ℕ}
    {lx lz : List Vec}
    (h : solveLogicals K hxRows hzRows n = Except.ok (lx, lz)) :
    checkAll K n hxRows hzRows lx lz = true := by
  simp only [solveLogicals] at h
  split at h
  · simp at h
  · split at h
    · injection h with h1
      injection h1 with ha hb
      subst ha
      subst hb
      assumption
    · simp at h

/-- Unpacking the final verification: the collection sizes equal `K`,
every returned vector has length `n`, and `LX · LZᵀ` is the identity. -/
theorem checkAll_spec {K : ℤ} {n : ℕ} {hxRows hzRows lx lz : List Vec}
    (h : checkAll K n hxRows hzRows lx lz = true) :
    (lx.length : ℤ) = K ∧ (lz.length : ℤ) = K ∧
    (∀ v ∈ lx, v.length = n) ∧ (∀ v ∈ lz, v.length = n) ∧
    ∀ i j, i < lx.length → j < lz.length →
      vdot (lx.getD i []) (lz.getD j []) = if i = j then 1 else 0 := by
  unfold checkAll at h
  simp only [Bool.and_eq_true, decide_eq_true_eq, List.all_eq_true] at h
  obtain ⟨⟨⟨⟨⟨⟨hKx, hKz⟩, hNx⟩, hNz⟩, -⟩, -⟩, hp⟩ := h
  refine ⟨hKx, hKz, hNx, hNz, ?_⟩
  intro i j hi hj
  unfold pairCheck at hp
  simp only [List.all_eq_true, List.mem_range, decide_eq_true_eq] at hp
  exact hp i hi j hj

/-! ## Claim theorems -/

/-- Claim C1 (corrected), counterexample: at the valid pair
(`dupCode1`, `dupCode2`) the constructed `K` is `(n1-r1)·(n2-r2) = 0`,
not the rank-based value `(n1-rank H1)·(n2-rank H2) = 1`: the claim's
formula fails on the code. -/
theorem K_rank_formula_cex :
    isValidCode dupCode1 = true ∧ isValidCode dupCode2 = true ∧
    (HGPCode.init dupCode1 dupCode2).K = 0 ∧
    (dupCode1.n - (gf2rank dupCode1.checkmatrix : ℤ)) *
      (dupCode2.n - (gf2rank dupCode2.checkmatrix : ℤ)) = 1 ∧
    (HGPCode.init dupCode1 dupCode2).K ≠
      (dupCode1.n - (gf2rank dupCode1.checkmatrix : ℤ)) *
        (dupCode2.n - (gf2rank dupCode2.checkmatrix : ℤ)) := by
  decide

/-- Claim C1 (corrected, amended): the HGPCode constructed from any two
classical codes has `K = (n1 - r1)·(n2 - r2)` computed from the declared
check counts, not from the GF(2) ranks of the check matrices
(src/hgp.py line 40). -/
theorem K_declared_formula (c1 c2 : classicalcode) :
    (HGPCode.init c1 c2).K = (c1.n - c1.r) * (c2.n - c2.r) := rfl

/-- Claim C2 (confirmed, spec-modelled): for every pair of (well-shaped
GF(2)) check matrices, `compile_stabilizer` populates the pair
(HX, HZ) and the orthogonality invariant `HX · HZᵀ ≡ 0 (mod 2)` holds;
the ConstructionError branch exists in the definition but is never
taken. -/
theorem compile_stabilizer_orthogonal {r1 n1 r2 n2 : ℕ} (s : HGPState r1 n1 r2 n2) :
    compile_stabilizer s =
      Except.ok ⟨s.H1, s.H2, some (HXmat s.H1 s.H2, HZmat s.H1 s.H2)⟩ ∧
    HXmat s.H1 s.H2 * (HZmat s.H1 s.H2)ᵀ = 0 :=
  ⟨compile_stabilizer_ok s, hgp_orthogonal s.H1 s.H2⟩

/-- Claim C3 (corrected), counterexample: `classicalcode.__init__`
accepts the 1 × 1 matrix `[[5]]` for declared shape (2, 3) with an
entry outside {0, 1} and returns normally instead of raising a
ValidationError. -/
theorem init_no_validation_cex :
    classicalcode.init 3 2 1 [[5]] = Except.ok ⟨3, 2, 1, [[5]]⟩ ∧
    isValidCode ⟨3, 2, 1, [[5]]⟩ = false :=
  ⟨rfl, by decide⟩

/-- Claim C3 (corrected, amended): `classicalcode.__init__` performs no
validation at all: construction succeeds on every input, conforming or
not, storing the arguments verbatim (src/hgp.py lines 8-18). -/
theorem init_always_succeeds (n r d : ℤ) (H : List (List ℤ)) :
    classicalcode.init n r d H = Except.ok ⟨n, r, d, H⟩ := rfl

/-- Claim C4 (confirmed): for every pair of classical codes, the
constructed HGPCode has `N = n1·n2 + r1·r2` exactly
(src/hgp.py line 39). -/
theorem N_formula (c1 c2 : classicalcode) :
    (HGPCode.init c1 c2).N = c1.n * c2.n + c1.r * c2.r := rfl

/-- Claim C5 (corrected), counterexample: the source `BP_decoder`
(src/hgp.py lines 72-78) has no check-matrix or error-probability
parameter and its body is `pass`: called on the syndrome `[0]` it
returns Python's `None` — neither the claimed
(error_estimate, converged, iterations_used) triple nor a ValueError. -/
theorem BP_decoder_stub_cex :
    BP_decoder [0] 100 = Except.ok none ∧
    (Except.ok none : Except PyError (Option (List ℤ × Bool × ℤ))) ≠
      Except.error PyError.ValueError :=
  ⟨rfl, fun hh => Except.noConfusion hh⟩

/-- Claim C5 (corrected, amended): `BP_decoder` takes only
`(syndrome, max_iterations=100)`; it is unimplemented and returns `None`
for every input, never raising. -/
theorem BP_decoder_returns_none (syndrome : List ℤ) (max_iterations : ℤ) :
    BP_decoder syndrome max_iterations = Except.ok none := rfl

/-- Claim C6 (confirmed, spec-modelled): whenever
`calc_logical_operators` returns collections (LX, LZ) — i.e. after the
stabilizer pair has been compiled and the solver succeeds — they are
collections of length-`N` binary vectors (`N = n1·n2 + r1·r2`) with
`|LX| = |LZ| = K` and `LX · LZᵀ ≡ I_K (mod 2)`. -/
theorem calc_logical_operators_invariants {r1 n1 r2 n2 : ℕ} (K : ℤ)
    (s : HGPState r1 n1 r2 n2) (lx lz : List Vec)
    (h : calc_logical_operators K s = Except.ok (lx, lz)) :
    (lx.length : ℤ) = K ∧ (lz.length : ℤ) = K ∧
    (∀ v ∈ lx, v.length = n1 * n2 + r1 * r2) ∧
    (∀ v ∈ lz, v.length = n1 * n2 + r1 * r2) ∧
    ∀ i j, i < lx.length → j < lz.length →
      vdot (lx.getD i []) (lz.getD j []) = if i = j then 1 else 0 := by
  unfold calc_logical_operators at h
  split at h
  · simp at h
  · exact checkAll_spec (solveLogicals_check h)

/-- Claim C6 witness: on the compiled 5-qubit hypergraph product of
`[1 1]` with itself (`K = 1`, `N = 2·2 + 1·1 = 5`), the solver returns
the concrete pair (`exLX`, `exLZ`) and the invariants hold there. -/
theorem calc_logical_operators_invariants_witness :
    (exLX.length : ℤ) = 1 ∧ (exLZ.length : ℤ) = 1 ∧
    (∀ v ∈ exLX, v.length = 2 * 2 + 1 * 1) ∧
    (∀ v ∈ exLZ, v.length = 2 * 2 + 1 * 1) ∧
    ∀ i j, i < exLX.length → j < exLZ.length →
      vdot (exLX.getD i []) (exLZ.getD j []) = if i = j then 1 else 0 :=
  calc_logical_operators_invariants 1 exState exLX exLZ (by decide)

/-- Claim C7 (confirmed, spec-modelled): calling
`calc_logical_operators` on a state whose stabilizer pair has not been
populated by `compile_stabilizer` fails with a PrecomputeMissingError;
it does not silently return. -/
theorem calc_logical_operators_requires_compile {r1 n1 r2 n2 : ℕ} (K : ℤ)
    (H1 : Matrix (Fin r1) (Fin n1) (ZMod 2)) (H2 : Matrix (Fin r2) (Fin n2) (ZMod 2)) :
    calc_logical_operators K (⟨H1, H2, none⟩ : HGPState r1 n1 r2 n2) =
      Except.error PyError.PrecomputeMissingError := rfl

/-- Claim C8 (confirmed, spec-modelled): `compile_stabilizer` is
idempotent: a second call on the state produced by a first call succeeds
and leaves the stabilizer pair bit-identical, rebuilt from the immutable
inputs. -/
theorem compile_stabilizer_idempotent {r1 n1 r2 n2 : ℕ}
    (s t : HGPState r1 n1 r2 n2) (h : compile_stabilizer s = Except.ok t) :
    compile_stabilizer t = Except.ok t ∧
    t.stab = some (HXmat t.H1 t.H2, HZmat t.H1 t.H2) := by
  have hs := compile_stabilizer_ok s
  rw [h] at hs
  injection hs with ht
  subst ht
  exact ⟨compile_stabilizer_ok _, rfl⟩

/-- Claim C8 witness: compiling the fresh 5-qubit example state yields
`exState`, and a second compilation reproduces it bit-identically. -/
theorem compile_stabilizer_idempotent_witness :
    compile_stabilizer exState = Except.ok exState ∧
    exState.stab = some (HXmat exState.H1 exState.H2, HZmat exState.H1 exState.H2) :=
  compile_stabilizer_idempotent exFresh exState (compile_stabilizer_ok exFresh)

/-- Claim C9 (corrected), counterexample: with `degCode1` (r1 = 0,
n1 = 1) and the valid code `degCode2` (n2 = 2, r2 = 1), the constructed
`K` is `(1-0)·(2-1) = 1`, not `n1·n2 = 2`: the claim fails on the
code. -/
theorem K_degenerate_cex :
    degCode1.r = 0 ∧ isValidCode degCode1 = true ∧ isValidCode degCode2 = true ∧
    (HGPCode.init degCode1 degCode2).K = 1 ∧
    degCode1.n * degCode2.n = 2 ∧
    (HGPCode.init degCode1 degCode2).K ≠ degCode1.n * degCode2.n := by
  decide

/-- Claim C9 (corrected, amended): when code1 declares `r1 = 0` checks,
the constructed HGPCode has `K = n1·(n2 - r2)` (src/hgp.py line 40);
this equals `n1·n2` only when `r2 = 0` as well. -/
theorem K_degenerate (c1 c2 : classicalcode) (h : c1.r = 0) :
    (HGPCode.init c1 c2).K = c1.n * (c2.n - c2.r) := by
  simp [HGPCode.init, h]

/-- Claim C9 witness: the amended formula evaluated at
(`degCode1`, `degCode2`). -/
theorem K_degenerate_witness :
    (HGPCode.init degCode1 degCode2).K = degCode1.n * (degCode2.n - degCode2.r) :=
  K_degenerate degCode1 degCode2 rfl

/-- Claim C10 (confirmed): `HGPCode.__init__` never reads the check
matrices: two pairs of codes agreeing on the declared (n, r, d)
parameters produce identical `N`, `K` and `D`
(src/hgp.py lines 33-41). -/
theorem params_independent_of_checkmatrix (c1 c2 c1x c2x : classicalcode)
    (h1n : c1.n = c1x.n) (h1r : c1.r = c1x.r) (h1d : c1.d = c1x.d)
    (h2n : c2.n = c2x.n) (h2r : c2.r = c2x.r) (h2d : c2.d = c2x.d) :
    (HGPCode.init c1 c2).N = (HGPCode.init c1x c2x).N ∧
    (HGPCode.init c1 c2).K = (HGPCode.init c1x c2x).K ∧
    (HGPCode.init c1 c2).D = (HGPCode.init c1x c2x).D := by
  simp [HGPCode.init, h1n, h1r, h1d, h2n, h2r, h2d]

/-- Claim C10 witness: the parameters agree at four concrete codes with
pairwise different check matrices. -/
theorem params_independent_of_checkmatrix_witness :
    (HGPCode.init altCode1 altCode2).N = (HGPCode.init altCode1x altCode2x).N ∧
    (HGPCode.init altCode1 altCode2).K = (HGPCode.init altCode1x altCode2x).K ∧
    (HGPCode.init altCode1 altCode2).D = (HGPCode.init altCode1x altCode2x).D :=
  params_independent_of_checkmatrix altCode1 altCode2 altCode1x altCode2x
    rfl rfl rfl rfl rfl rfl

end HGP
